import Mathlib

/-!
Shallow embedding of the rfvp Android JNI bridge
(`platform/android/app/src/main/cpp/rfvp_jni.cpp`).

The bridge resolves the engine's C entry points once per process
(`load_api_or_log`), registers the Android context once
(`nativeInitAndroidContext`), keeps one `ANativeWindow` reference per engine
handle in `g_windows`, and forwards create/step/resize/setSurface/touch/destroy
to the engine.

Modelling choices:
* pointers and JNI object references are natural numbers, `0` playing the
  role of the null pointer / null `jobject`;
* `jlong` engine handles are integers, `0` the reserved null handle;
* `jdouble` values are opaque: the bridge only forwards them, so any type
  with decidable equality works; we use `Int` as the stand-in;
* every externally visible side effect (window acquire/release, UTF-8
  buffer acquire/release, engine entry-point invocation, table mutation,
  log line) is recorded in an event trace, oldest event first;
* the external world (dynamic loader, `ANativeWindow_fromSurface`, JNI env,
  engine results) is a fixed oracle `Host` supplied to each call;
* `std::unordered_map<jlong, ANativeWindow*>` is an association list whose
  keys are pairwise distinct (`keysNodup`), with `find` / `erase(it)` /
  `emplace` mirrored exactly.
-/

namespace Rfvp

/-- Opaque stand-in for a `jdouble` crossing the boundary: the bridge never
computes with these values, it only forwards them verbatim. -/
abbrev JDouble := Int

/-- `static_cast<uint32_t>` applied to a 32-bit signed value: reduction
modulo `2 ^ 32`. -/
def toU32 (i : Int) : Nat := (i % (2 ^ 32 : Int)).toNat

/-- The API table `g_api`: one slot per engine entry point. `true` means the
`dlsym` lookup bound the slot; `false` that it is unbound (null pointer).
The engine functions themselves live in the `Host` oracle. -/
structure Api where
  create : Bool
  step : Bool
  resize : Bool
  set_surface : Bool
  touch : Bool
  destroy : Bool
  init_context : Bool
deriving Repr, DecidableEq

/-- The all-unbound table: the value of `g_api` before resolution. -/
def Api.unbound : Api :=
  { create := false, step := false, resize := false, set_surface := false,
    touch := false, destroy := false, init_context := false }

/-- Observable side effects of the bridge, in program order. -/
inductive Event where
  | acquireWin (r : Nat)
  | releaseWin (r : Nat)
  | acquireUtf8 (s : String)
  | releaseUtf8 (s : String)
  | engineCreate (win w h : Nat) (scale : JDouble) (gameDir nls : Option String)
  | engineStep (h : Int) (dt : Nat)
  | engineResize (h : Int) (w hpx : Nat)
  | engineSetSurface (h : Int) (win w hpx : Nat)
  | engineTouch (h phase : Int) (x y : JDouble)
  | engineDestroy (h : Int)
  | engineInitContext (vm gref : Nat)
  | tableErase (h : Int)
  | tableInsert (h : Int) (r : Nat)
  | log (msg : String)
deriving Repr, DecidableEq

/-- The world outside the bridge, as a fixed oracle: dynamic-loader outcome,
platform/JNI primitives, and the opaque engine. References and pointers are
numbers with `0` for null. -/
structure Host where
  dlopenOk : Bool
  syms : Api
  fromSurface : Nat → Nat
  getJavaVM : Nat
  newGlobalRef : Nat → Nat
  engineCreate : Nat → Nat → Nat → JDouble → Option String → Option String → Int
  engineStep : Int → Nat → Int

/-- The bridge's process-wide mutable state: the `g_api_once` flag and table,
`g_lib_handle`, the `g_ctx_once` flag with `g_java_vm` / `g_app_ctx`, the
handle-keyed window table `g_windows`, and the event trace. -/
structure BridgeState where
  apiDone : Bool
  libHandle : Bool
  api : Api
  ctxDone : Bool
  javaVm : Nat
  appCtx : Nat
  windows : List (Int × Nat)
  trace : List Event
deriving Repr, DecidableEq

/-- The state at process start. -/
def BridgeState.init : BridgeState :=
  { apiDone := false, libHandle := false, api := Api.unbound,
    ctxDone := false, javaVm := 0, appCtx := 0, windows := [], trace := [] }

/-- Append events to the trace. -/
def addEv (s : BridgeState) (es : List Event) : BridgeState :=
  { s with trace := s.trace ++ es }

/-- `g_windows.find(k)`: first (and, under `keysNodup`, only) value stored
under key `k`. -/
def mapFind (m : List (Int × Nat)) (k : Int) : Option Nat :=
  match m with
  | [] => none
  | (k1, v) :: rest => if k1 = k then some v else mapFind rest k

/-- `g_windows.erase(it)` where `it` is the iterator returned by `find(k)`:
removes the first entry with key `k`, if any. -/
def mapErase (m : List (Int × Nat)) (k : Int) : List (Int × Nat) :=
  match m with
  | [] => []
  | (k1, v) :: rest => if k1 = k then rest else (k1, v) :: mapErase rest k

/-- Number of entries stored under key `k`. -/
def keyCount (m : List (Int × Nat)) (k : Int) : Nat :=
  (m.filter (fun p => p.1 = k)).length

/-- The `unordered_map` representation invariant: keys are pairwise distinct. -/
def keysNodup (m : List (Int × Nat)) : Prop :=
  (m.map Prod.fst).Nodup

instance (m : List (Int × Nat)) : Decidable (keysNodup m) := by
  unfold keysNodup; infer_instance

/-- `g_windows.emplace(k, v)`: inserts only when no entry with key `k`
exists (the `unordered_map::emplace` contract); records the insertion. -/
def emplaceWin (s : BridgeState) (k : Int) (v : Nat) : BridgeState :=
  match mapFind s.windows k with
  | some _ => s
  | none =>
    { s with
      windows := (k, v) :: s.windows,
      trace := s.trace ++ [Event.tableInsert k v] }

/-- `release_window_locked(handle_key)`: find the entry; if present, release
the stored window when non-null, then erase the entry. -/
def release_window_locked (s : BridgeState) (key : Int) : BridgeState :=
  match mapFind s.windows key with
  | none => s
  | some r =>
    { s with
      windows := mapErase s.windows key,
      trace := s.trace ++
        (if r ≠ 0 then [Event.releaseWin r] else []) ++ [Event.tableErase key] }

/-- Log events emitted for one `dlsym` lookup: an error line when the symbol
is missing. -/
def dlsymLog (ok : Bool) (name : String) : List Event :=
  if ok then [] else [Event.log ("dlsym failed: " ++ name)]

/-- `load_api_or_log()`: the `std::call_once(g_api_once, ...)` body. The
once-flag is consumed on every first call, also when `dlopen` fails; the
binding itself runs only when `dlopen` succeeds. -/
def load_api_or_log (H : Host) (s : BridgeState) : BridgeState :=
  if s.apiDone then s
  else if H.dlopenOk = false then
    { s with
      apiDone := true,
      trace := s.trace ++ [Event.log "dlopen failed"] }
  else
    { s with
      apiDone := true,
      libHandle := true,
      api := H.syms,
      trace := s.trace ++
        dlsymLog H.syms.create "rfvp_android_create" ++
        dlsymLog H.syms.step "rfvp_android_step" ++
        dlsymLog H.syms.resize "rfvp_android_resize" ++
        dlsymLog H.syms.set_surface "rfvp_android_set_surface" ++
        dlsymLog H.syms.touch "rfvp_android_touch" ++
        dlsymLog H.syms.destroy "rfvp_android_destroy" ++
        dlsymLog H.syms.init_context "rfvp_android_init_context" ++
        (if H.syms.create && H.syms.step && H.syms.resize &&
            H.syms.set_surface && H.syms.touch && H.syms.destroy then
          [Event.log "rfvp_android_* symbols resolved"]
        else
          [Event.log "missing one or more rfvp_android_* symbols"]) ++
        (if H.syms.init_context then []
         else [Event.log "rfvp_android_init_context is missing"]) }

/-- `Java_com_rfvp_launcher_NativeRfvp_nativeInitAndroidContext`. The guards
(`init_context` bound, non-null `app_context`) run before the once-gate, so a
guarded early return does not consume `g_ctx_once`; a failure inside the
`call_once` body does. -/
def nativeInitAndroidContext (H : Host) (app_context : Nat)
    (s0 : BridgeState) : BridgeState :=
  let s := load_api_or_log H s0
  if s.api.init_context = false then
    addEv s [Event.log "nativeInitAndroidContext: rfvp_android_init_context is null"]
  else if app_context = 0 then
    addEv s [Event.log "nativeInitAndroidContext: app_context is null"]
  else if s.ctxDone then s
  else
    let s1 : BridgeState := { s with ctxDone := true }
    if H.getJavaVM = 0 then
      addEv s1 [Event.log "nativeInitAndroidContext: GetJavaVM failed"]
    else if H.newGlobalRef app_context = 0 then
      addEv s1 [Event.log "nativeInitAndroidContext: NewGlobalRef failed"]
    else
      { s1 with
        javaVm := H.getJavaVM,
        appCtx := H.newGlobalRef app_context,
        trace := s1.trace ++
          [Event.engineInitContext H.getJavaVM (H.newGlobalRef app_context),
           Event.log "nativeInitAndroidContext: ndk-context initialized"] }

/-- `get_utf8_or_null(env, s)`: for a null `jstring` returns the null pointer
and acquires nothing; otherwise acquires the UTF-8 buffer. Returns the
pointer together with the acquisition events. -/
def get_utf8_or_null (js : Option String) : Option String × List Event :=
  match js with
  | none => (none, [])
  | some str => (some str, [Event.acquireUtf8 str])

/-- `release_utf8(env, s, p)`: releases only when both the `jstring` and the
buffer pointer are non-null. -/
def release_utf8 (js : Option String) (p : Option String) : List Event :=
  match js, p with
  | some _, some str => [Event.releaseUtf8 str]
  | _, _ => []

/-- `Java_com_rfvp_launcher_NativeRfvp_create`. -/
def create (H : Host) (surface : Nat) (width_px height_px : Int)
    (scale : JDouble) (game_dir nls : Option String)
    (s0 : BridgeState) : Int × BridgeState :=
  let s := load_api_or_log H s0
  if s.api.create = false then (0, s)
  else if surface = 0 then
    (0, addEv s [Event.log "create: surface is null"])
  else
    let win := H.fromSurface surface
    if win = 0 then
      (0, addEv s [Event.log "ANativeWindow_fromSurface returned null"])
    else
      let s1 := addEv s [Event.acquireWin win]
      let gd := get_utf8_or_null game_dir
      let nl := get_utf8_or_null nls
      let s2 := addEv s1 (gd.2 ++ nl.2)
      let handle :=
        H.engineCreate win (toU32 width_px) (toU32 height_px) scale gd.1 nl.1
      let s3 := addEv s2
        [Event.engineCreate win (toU32 width_px) (toU32 height_px) scale gd.1 nl.1]
      let s4 := addEv s3 (release_utf8 game_dir gd.1 ++ release_utf8 nls nl.1)
      if handle = 0 then
        (0, addEv s4 [Event.releaseWin win,
                      Event.log "rfvp_android_create returned null"])
      else
        (handle, emplaceWin (release_window_locked s4 handle) handle win)

/-- `Java_com_rfvp_launcher_NativeRfvp_step`. -/
def step (H : Host) (handle dt_ms : Int) (s0 : BridgeState) :
    Int × BridgeState :=
  let s := load_api_or_log H s0
  if s.api.step = false then (1, s)
  else if handle = 0 then (1, s)
  else
    (H.engineStep handle (toU32 dt_ms),
     addEv s [Event.engineStep handle (toU32 dt_ms)])

/-- `Java_com_rfvp_launcher_NativeRfvp_resize`. -/
def resize (H : Host) (handle width_px height_px : Int)
    (s0 : BridgeState) : BridgeState :=
  let s := load_api_or_log H s0
  if s.api.resize = false ∨ handle = 0 then s
  else addEv s [Event.engineResize handle (toU32 width_px) (toU32 height_px)]

/-- `Java_com_rfvp_launcher_NativeRfvp_setSurface`. -/
def setSurface (H : Host) (handle : Int) (surface : Nat)
    (width_px height_px : Int) (s0 : BridgeState) : BridgeState :=
  let s := load_api_or_log H s0
  if s.api.set_surface = false ∨ handle = 0 then s
  else if surface = 0 then
    addEv s [Event.log "setSurface: surface is null (ignored)"]
  else
    let win := H.fromSurface surface
    if win = 0 then
      addEv s [Event.log "setSurface: ANativeWindow_fromSurface returned null"]
    else
      let s1 := addEv s
        [Event.acquireWin win,
         Event.engineSetSurface handle win (toU32 width_px) (toU32 height_px)]
      emplaceWin (release_window_locked s1 handle) handle win

/-- `Java_com_rfvp_launcher_NativeRfvp_touch`. -/
def touch (H : Host) (handle phase : Int) (x_px y_px : JDouble)
    (s0 : BridgeState) : BridgeState :=
  let s := load_api_or_log H s0
  if s.api.touch = false ∨ handle = 0 then s
  else addEv s [Event.engineTouch handle phase x_px y_px]

/-- `Java_com_rfvp_launcher_NativeRfvp_destroy`: engine teardown first, then
the table entry is released and erased. -/
def destroy (H : Host) (handle : Int) (s0 : BridgeState) : BridgeState :=
  let s := load_api_or_log H s0
  if s.api.destroy = false ∨ handle = 0 then s
  else release_window_locked (addEv s [Event.engineDestroy handle]) handle

/-- One upstream-facing call into the bridge, with its arguments. -/
inductive Call where
  | initCtx (appCtx : Nat)
  | create (surface : Nat) (w h : Int) (sc : JDouble) (gd nls : Option String)
  | step (h dt : Int)
  | resize (h w hpx : Int)
  | setSurface (h : Int) (surface : Nat) (w hpx : Int)
  | touch (h phase : Int) (x y : JDouble)
  | destroy (h : Int)

/-- Run one call (results of `create` / `step` discarded, state kept). -/
def runCall (H : Host) (c : Call) (s : BridgeState) : BridgeState :=
  match c with
  | Call.initCtx a => nativeInitAndroidContext H a s
  | Call.create surf w h sc gd nls => (create H surf w h sc gd nls s).2
  | Call.step h dt => (step H h dt s).2
  | Call.resize h w hpx => resize H h w hpx s
  | Call.setSurface h surf w hpx => setSurface H h surf w hpx s
  | Call.touch h p x y => touch H h p x y s
  | Call.destroy h => destroy H h s

/-- Run a sequence of calls, each with its own host oracle (so that "the
shared binary later becomes available" is expressible). -/
def runSeq (cs : List (Host × Call)) (s : BridgeState) : BridgeState :=
  match cs with
  | [] => s
  | (H, c) :: rest => runSeq rest (runCall H c s)

/-- Occurrences of `acquireWin r` in a trace. -/
def acqCount (tr : List Event) (r : Nat) : Nat := tr.count (Event.acquireWin r)

/-- Occurrences of `releaseWin r` in a trace. -/
def relCount (tr : List Event) (r : Nat) : Nat := tr.count (Event.releaseWin r)

/-- Does the event invoke the engine's context entry point? -/
def isInitCtxEv : Event → Bool
  | Event.engineInitContext _ _ => true
  | _ => false

/-- Occurrences of engine context registration in a trace. -/
def initCount (tr : List Event) : Nat := tr.countP isInitCtxEv

/-! ### Concrete fixtures used to exercise the definitions -/

/-- A host on which everything works: the binary loads, all symbols resolve,
surfaces yield windows, and the engine accepts calls. -/
def hostA : Host :=
  { dlopenOk := true,
    syms := { create := true, step := true, resize := true,
              set_surface := true, touch := true, destroy := true,
              init_context := true },
    fromSurface := fun n => n + 100,
    getJavaVM := 7,
    newGlobalRef := fun n => n + 1,
    engineCreate := fun _ _ _ _ _ _ => 42,
    engineStep := fun _ _ => 0 }

/-- A host on which `dlopen` fails: every slot stays unbound. -/
def hostNone : Host :=
  { dlopenOk := false,
    syms := Api.unbound,
    fromSurface := fun _ => 0,
    getJavaVM := 0,
    newGlobalRef := fun _ => 0,
    engineCreate := fun _ _ _ _ _ _ => 0,
    engineStep := fun _ _ => 1 }

/-- A state in which the API is resolved and handle `5` owns window `33`. -/
def stReady : BridgeState :=
  { apiDone := true, libHandle := true, api := hostA.syms,
    ctxDone := false, javaVm := 0, appCtx := 0,
    windows := [(5, 33)], trace := [] }

/-! ### Basic lemmas about the state operations -/

@[simp] lemma addEv_api (s : BridgeState) (es : List Event) :
    (addEv s es).api = s.api := rfl

@[simp] lemma addEv_apiDone (s : BridgeState) (es : List Event) :
    (addEv s es).apiDone = s.apiDone := rfl

@[simp] lemma addEv_ctxDone (s : BridgeState) (es : List Event) :
    (addEv s es).ctxDone = s.ctxDone := rfl

@[simp] lemma addEv_javaVm (s : BridgeState) (es : List Event) :
    (addEv s es).javaVm = s.javaVm := rfl

@[simp] lemma addEv_appCtx (s : BridgeState) (es : List Event) :
    (addEv s es).appCtx = s.appCtx := rfl

@[simp] lemma addEv_windows (s : BridgeState) (es : List Event) :
    (addEv s es).windows = s.windows := rfl

@[simp] lemma addEv_trace (s : BridgeState) (es : List Event) :
    (addEv s es).trace = s.trace ++ es := rfl

/-- Once the API once-flag is set, `load_api_or_log` is the identity. -/
lemma load_done (H : Host) (s : BridgeState) (h : s.apiDone = true) :
    load_api_or_log H s = s := by
  unfold load_api_or_log
  simp [h]

/-- Any call to `load_api_or_log` leaves the once-flag set. -/
lemma load_apiDone (H : Host) (s : BridgeState) :
    (load_api_or_log H s).apiDone = true := by
  unfold load_api_or_log
  split
  · assumption
  · split <;> rfl

/-- `load_api_or_log` never touches the window table. -/
lemma load_windows (H : Host) (s : BridgeState) :
    (load_api_or_log H s).windows = s.windows := by
  unfold load_api_or_log
  split
  · rfl
  · split <;> rfl

/-- `load_api_or_log` never touches the context registration state. -/
lemma load_ctx (H : Host) (s : BridgeState) :
    (load_api_or_log H s).ctxDone = s.ctxDone ∧
    (load_api_or_log H s).javaVm = s.javaVm ∧
    (load_api_or_log H s).appCtx = s.appCtx := by
  unfold load_api_or_log
  split
  · exact ⟨rfl, rfl, rfl⟩
  · split <;> exact ⟨rfl, rfl, rfl⟩

/-- A `dlsym` log list contains no occurrence of a non-log event. -/
lemma count_dlsymLog (b : Bool) (n : String) (e : Event)
    (he : ∀ m, e ≠ Event.log m) : (dlsymLog b n).count e = 0 := by
  unfold dlsymLog
  split
  · rfl
  · simp [List.count_singleton, beq_iff_eq, he]

/-- `load_api_or_log` does not change the count of any non-log event. -/
lemma load_count (H : Host) (s : BridgeState) (e : Event)
    (he : ∀ m, e ≠ Event.log m) :
    (load_api_or_log H s).trace.count e = s.trace.count e := by
  unfold load_api_or_log
  split
  · rfl
  · split
    · simp [List.count_append, List.count_singleton, beq_iff_eq, he]
    · split <;> split <;>
        simp [List.count_append, count_dlsymLog _ _ _ he,
          List.count_singleton, beq_iff_eq, he]

/-! ### Lemmas about the association-list window table -/

@[simp] lemma mapFind_nil (k : Int) : mapFind [] k = none := rfl

@[simp] lemma mapFind_cons_self (k : Int) (v : Nat) (m : List (Int × Nat)) :
    mapFind ((k, v) :: m) k = some v := by
  simp [mapFind]

/-- A key outside the key list is not found. -/
lemma mapFind_eq_none_of_not_mem (m : List (Int × Nat)) (k : Int)
    (h : k ∉ m.map Prod.fst) : mapFind m k = none := by
  induction m with
  | nil => rfl
  | cons p t ih =>
    obtain ⟨k1, v⟩ := p
    simp only [List.map_cons, List.mem_cons] at h
    push_neg at h
    have hk1 : ¬ k1 = k := fun hk => h.1 hk.symm
    simp only [mapFind]
    rw [if_neg hk1]
    exact ih h.2

/-- Erasing the found key from a duplicate-free table removes it entirely. -/
lemma mapFind_erase_self (m : List (Int × Nat)) (k : Int)
    (h : keysNodup m) : mapFind (mapErase m k) k = none := by
  induction m with
  | nil => rfl
  | cons p t ih =>
    obtain ⟨k1, v⟩ := p
    unfold keysNodup at h
    simp only [List.map_cons, List.nodup_cons] at h
    by_cases hk : k1 = k
    · subst hk
      simp only [mapErase, if_pos rfl]
      exact mapFind_eq_none_of_not_mem t k1 h.1
    · simp only [mapErase, if_neg hk, mapFind, if_neg hk]
      exact ih h.2

/-- A key that is not found has no entries. -/
lemma keyCount_eq_zero (m : List (Int × Nat)) (k : Int)
    (h : mapFind m k = none) : keyCount m k = 0 := by
  induction m with
  | nil => rfl
  | cons p t ih =>
    obtain ⟨k1, v⟩ := p
    by_cases hk : k1 = k
    · subst hk
      simp [mapFind] at h
    · simp only [mapFind] at h
      rw [if_neg hk] at h
      simp only [keyCount, List.filter_cons] at ih ⊢
      simp [hk, ih h]

@[simp] lemma keyCount_cons_self (k : Int) (v : Nat) (m : List (Int × Nat)) :
    keyCount ((k, v) :: m) k = keyCount m k + 1 := by
  simp [keyCount, List.filter_cons]

/-! ### Projection lemmas for the table-updating helpers -/

@[simp] lemma emplaceWin_api (s : BridgeState) (k : Int) (v : Nat) :
    (emplaceWin s k v).api = s.api := by
  unfold emplaceWin; split <;> rfl

@[simp] lemma emplaceWin_apiDone (s : BridgeState) (k : Int) (v : Nat) :
    (emplaceWin s k v).apiDone = s.apiDone := by
  unfold emplaceWin; split <;> rfl

@[simp] lemma emplaceWin_ctxDone (s : BridgeState) (k : Int) (v : Nat) :
    (emplaceWin s k v).ctxDone = s.ctxDone := by
  unfold emplaceWin; split <;> rfl

@[simp] lemma emplaceWin_javaVm (s : BridgeState) (k : Int) (v : Nat) :
    (emplaceWin s k v).javaVm = s.javaVm := by
  unfold emplaceWin; split <;> rfl

@[simp] lemma emplaceWin_appCtx (s : BridgeState) (k : Int) (v : Nat) :
    (emplaceWin s k v).appCtx = s.appCtx := by
  unfold emplaceWin; split <;> rfl

@[simp] lemma rwl_api (s : BridgeState) (k : Int) :
    (release_window_locked s k).api = s.api := by
  unfold release_window_locked; split <;> rfl

@[simp] lemma rwl_apiDone (s : BridgeState) (k : Int) :
    (release_window_locked s k).apiDone = s.apiDone := by
  unfold release_window_locked; split <;> rfl

@[simp] lemma rwl_ctxDone (s : BridgeState) (k : Int) :
    (release_window_locked s k).ctxDone = s.ctxDone := by
  unfold release_window_locked; split <;> rfl

@[simp] lemma rwl_javaVm (s : BridgeState) (k : Int) :
    (release_window_locked s k).javaVm = s.javaVm := by
  unfold release_window_locked; split <;> rfl

@[simp] lemma rwl_appCtx (s : BridgeState) (k : Int) :
    (release_window_locked s k).appCtx = s.appCtx := by
  unfold release_window_locked; split <;> rfl

/-! ### Counting engine context registrations -/

lemma initCount_append (t d : List Event) :
    initCount (t ++ d) = initCount t + initCount d := by
  simp [initCount, List.countP_append]

lemma initCount_dlsymLog (b : Bool) (n : String) :
    initCount (dlsymLog b n) = 0 := by
  unfold dlsymLog; split <;> simp [initCount, isInitCtxEv]

lemma load_initCount (H : Host) (s : BridgeState) :
    initCount (load_api_or_log H s).trace = initCount s.trace := by
  unfold load_api_or_log
  split
  · rfl
  · split
    · simp [initCount_append, initCount, isInitCtxEv]
    · split <;> split <;>
        (simp only [initCount_append, initCount_dlsymLog];
         simp [initCount, isInitCtxEv])

@[simp] lemma initCount_nil : initCount [] = 0 := rfl

lemma initCount_cons (e : Event) (t : List Event) :
    initCount (e :: t) = (if isInitCtxEv e then 1 else 0) + initCount t := by
  simp [initCount, List.countP_cons]
  split <;> simp_all [Nat.add_comm]

lemma get_utf8_initCount (js : Option String) :
    initCount (get_utf8_or_null js).2 = 0 := by
  cases js <;> simp [get_utf8_or_null, initCount_cons, isInitCtxEv]

lemma release_utf8_initCount (js p : Option String) :
    initCount (release_utf8 js p) = 0 := by
  cases js <;> cases p <;> simp [release_utf8, initCount_cons, isInitCtxEv]

lemma emplaceWin_initCount (s : BridgeState) (k : Int) (v : Nat) :
    initCount (emplaceWin s k v).trace = initCount s.trace := by
  unfold emplaceWin
  split
  · rfl
  · simp [initCount_append, initCount, isInitCtxEv]

lemma rwl_initCount (s : BridgeState) (k : Int) :
    initCount (release_window_locked s k).trace = initCount s.trace := by
  unfold release_window_locked
  split
  · rfl
  · split <;> simp [initCount_append, initCount, isInitCtxEv]

/-! ### Per-call preservation lemmas -/

/-- Once the API once-flag is set, no upstream call changes the bound table
or clears the flag: the binding work never re-executes. -/
lemma runCall_api (H : Host) (c : Call) (s : BridgeState)
    (hd : s.apiDone = true) :
    (runCall H c s).api = s.api ∧ (runCall H c s).apiDone = true := by
  have hl := load_done H s hd
  cases c <;>
    simp only [runCall, nativeInitAndroidContext, create, step, resize,
      setSurface, touch, destroy, hl] <;>
    (repeat' split) <;>
    (first | rfl | simp_all)

/-- Once the context once-flag is set, no upstream call changes the stored
context pair, clears the flag, or invokes the engine's context entry point
again. -/
lemma runCall_ctx (H : Host) (c : Call) (s : BridgeState)
    (hc : s.ctxDone = true) :
    (runCall H c s).ctxDone = true ∧
    (runCall H c s).javaVm = s.javaVm ∧
    (runCall H c s).appCtx = s.appCtx ∧
    initCount (runCall H c s).trace = initCount s.trace := by
  obtain ⟨hc1, hc2, hc3⟩ := load_ctx H s
  cases c <;>
    simp only [runCall, nativeInitAndroidContext, create, step, resize,
      setSurface, touch, destroy] <;>
    (repeat' split) <;>
    (first
      | rfl
      | simp_all [initCount_append, load_initCount, emplaceWin_initCount,
          rwl_initCount, initCount_cons, initCount_nil, isInitCtxEv,
          get_utf8_initCount, release_utf8_initCount, load_ctx])

/-- Sequence version of `runCall_api`. -/
lemma runSeq_api (cs : List (Host × Call)) (s : BridgeState)
    (hd : s.apiDone = true) :
    (runSeq cs s).api = s.api ∧ (runSeq cs s).apiDone = true := by
  induction cs generalizing s with
  | nil => exact ⟨rfl, hd⟩
  | cons p t ih =>
    obtain ⟨H, c⟩ := p
    obtain ⟨h1, h2⟩ := runCall_api H c s hd
    obtain ⟨h3, h4⟩ := ih (runCall H c s) h2
    exact ⟨h3.trans h1, h4⟩

/-- Sequence version of `runCall_ctx`. -/
lemma runSeq_ctx (cs : List (Host × Call)) (s : BridgeState)
    (hc : s.ctxDone = true) :
    (runSeq cs s).ctxDone = true ∧
    (runSeq cs s).javaVm = s.javaVm ∧
    (runSeq cs s).appCtx = s.appCtx ∧
    initCount (runSeq cs s).trace = initCount s.trace := by
  induction cs generalizing s with
  | nil => exact ⟨hc, rfl, rfl, rfl⟩
  | cons p t ih =>
    obtain ⟨H, c⟩ := p
    obtain ⟨h1, h2, h3, h4⟩ := runCall_ctx H c s hc
    obtain ⟨g1, g2, g3, g4⟩ := ih _ h1
    exact ⟨g1, g2.trans h2, g3.trans h3, g4.trans h4⟩

/-! ### Branch-resolution lemmas for the table helpers -/

lemma acquireWin_ne_log (r : Nat) : ∀ m, Event.acquireWin r ≠ Event.log m := by
  intro m
  simp

lemma releaseWin_ne_log (r : Nat) : ∀ m, Event.releaseWin r ≠ Event.log m := by
  intro m
  simp

lemma get_utf8_fst (js : Option String) : (get_utf8_or_null js).1 = js := by
  cases js <;> rfl

lemma rwl_of_find_none (s : BridgeState) (k : Int)
    (hf : mapFind s.windows k = none) :
    release_window_locked s k = s := by
  unfold release_window_locked
  rw [hf]

lemma rwl_of_find_some (s : BridgeState) (k : Int) (r : Nat)
    (hf : mapFind s.windows k = some r) :
    release_window_locked s k =
      { s with
        windows := mapErase s.windows k,
        trace := s.trace ++ (if r ≠ 0 then [Event.releaseWin r] else []) ++
          [Event.tableErase k] } := by
  unfold release_window_locked
  rw [hf]

lemma emplaceWin_of_find_none (s : BridgeState) (k : Int) (v : Nat)
    (hf : mapFind s.windows k = none) :
    emplaceWin s k v =
      { s with
        windows := (k, v) :: s.windows,
        trace := s.trace ++ [Event.tableInsert k v] } := by
  unfold emplaceWin
  rw [hf]

lemma keyCount_erase_self (m : List (Int × Nat)) (k : Int)
    (h : keysNodup m) : keyCount (mapErase m k) k = 0 :=
  keyCount_eq_zero _ _ (mapFind_erase_self m k h)

lemma addEv_addEv (s : BridgeState) (es fs : List Event) :
    addEv (addEv s es) fs = addEv s (es ++ fs) := by
  simp [addEv, List.append_assoc]

/-- The events appended by `release_window_locked` never touch UTF-8
buffers. -/
lemma rwl_trace_delta (s : BridgeState) (k : Int) :
    ∃ d, (release_window_locked s k).trace = s.trace ++ d ∧
      ∀ g, d.count (Event.acquireUtf8 g) = 0 ∧
           d.count (Event.releaseUtf8 g) = 0 := by
  unfold release_window_locked
  cases hf : mapFind s.windows k with
  | none => exact ⟨[], by simp, by simp⟩
  | some r =>
    refine ⟨(if r ≠ 0 then [Event.releaseWin r] else []) ++
      [Event.tableErase k], ?_, ?_⟩
    · simp [List.append_assoc]
    · intro g
      split <;> simp

/-- The events appended by `emplaceWin` never touch UTF-8 buffers. -/
lemma emplace_trace_delta (s : BridgeState) (k : Int) (v : Nat) :
    ∃ d, (emplaceWin s k v).trace = s.trace ++ d ∧
      ∀ g, d.count (Event.acquireUtf8 g) = 0 ∧
           d.count (Event.releaseUtf8 g) = 0 := by
  unfold emplaceWin
  cases hf : mapFind s.windows k with
  | some r => exact ⟨[], by simp, by simp⟩
  | none => exact ⟨[Event.tableInsert k v], rfl, by simp⟩

/-! ### Branch equations for `create` -/

lemma create_unbound_eq (H : Host) (surf : Nat) (w hp : Int) (sc : JDouble)
    (gd nls : Option String) (s : BridgeState)
    (hc : (load_api_or_log H s).api.create = false) :
    create H surf w hp sc gd nls s = (0, load_api_or_log H s) := by
  simp only [create]
  rw [if_pos hc]

lemma create_nullsurface_eq (H : Host) (surf : Nat) (w hp : Int)
    (sc : JDouble) (gd nls : Option String) (s : BridgeState)
    (hc : ¬ (load_api_or_log H s).api.create = false) (hs : surf = 0) :
    create H surf w hp sc gd nls s =
      (0, addEv (load_api_or_log H s)
        [Event.log "create: surface is null"]) := by
  simp only [create]
  rw [if_neg hc, if_pos hs]

lemma create_nowindow_eq (H : Host) (surf : Nat) (w hp : Int)
    (sc : JDouble) (gd nls : Option String) (s : BridgeState)
    (hc : ¬ (load_api_or_log H s).api.create = false) (hs : ¬ surf = 0)
    (hw : H.fromSurface surf = 0) :
    create H surf w hp sc gd nls s =
      (0, addEv (load_api_or_log H s)
        [Event.log "ANativeWindow_fromSurface returned null"]) := by
  simp only [create]
  rw [if_neg hc, if_neg hs, if_pos hw]

lemma create_engfail_eq (H : Host) (surf : Nat) (w hp : Int)
    (sc : JDouble) (gd nls : Option String) (s : BridgeState)
    (hc : ¬ (load_api_or_log H s).api.create = false) (hs : ¬ surf = 0)
    (hw : ¬ H.fromSurface surf = 0)
    (he : H.engineCreate (H.fromSurface surf) (toU32 w) (toU32 hp) sc
      gd nls = 0) :
    create H surf w hp sc gd nls s =
      (0, addEv (load_api_or_log H s)
        ([Event.acquireWin (H.fromSurface surf)] ++
         (get_utf8_or_null gd).2 ++ (get_utf8_or_null nls).2 ++
         [Event.engineCreate (H.fromSurface surf) (toU32 w) (toU32 hp) sc
           gd nls] ++
         release_utf8 gd gd ++ release_utf8 nls nls ++
         [Event.releaseWin (H.fromSurface surf),
          Event.log "rfvp_android_create returned null"])) := by
  simp only [create, get_utf8_fst]
  rw [if_neg hc, if_neg hs, if_neg hw, if_pos he]
  simp [addEv_addEv, List.append_assoc]

lemma create_engok_eq (H : Host) (surf : Nat) (w hp : Int)
    (sc : JDouble) (gd nls : Option String) (s : BridgeState)
    (hc : ¬ (load_api_or_log H s).api.create = false) (hs : ¬ surf = 0)
    (hw : ¬ H.fromSurface surf = 0)
    (he : ¬ H.engineCreate (H.fromSurface surf) (toU32 w) (toU32 hp) sc
      gd nls = 0) :
    create H surf w hp sc gd nls s =
      (H.engineCreate (H.fromSurface surf) (toU32 w) (toU32 hp) sc gd nls,
       emplaceWin
         (release_window_locked
           (addEv (load_api_or_log H s)
             ([Event.acquireWin (H.fromSurface surf)] ++
              (get_utf8_or_null gd).2 ++ (get_utf8_or_null nls).2 ++
              [Event.engineCreate (H.fromSurface surf) (toU32 w) (toU32 hp)
                sc gd nls] ++
              release_utf8 gd gd ++ release_utf8 nls nls))
           (H.engineCreate (H.fromSurface surf) (toU32 w) (toU32 hp) sc
             gd nls))
         (H.engineCreate (H.fromSurface surf) (toU32 w) (toU32 hp) sc
           gd nls)
         (H.fromSurface surf)) := by
  simp only [create, get_utf8_fst]
  rw [if_neg hc, if_neg hs, if_neg hw, if_neg he]
  simp [addEv_addEv, List.append_assoc]

/-! ### Claim theorems -/

/-- C1: a successful `setSurface` on a handle that currently owns window
reference `r1` leaves the table mapping the handle to the reference newly
acquired from the surface, and releases `r1` exactly once — no double
release, no leak. -/
theorem set_surface_swaps_reference (H : Host) (h w hp : Int) (surf : Nat)
    (s : BridgeState) (r1 : Nat)
    (hdone : s.apiDone = true) (hslot : s.api.set_surface = true)
    (hh : h ≠ 0) (hsurf : surf ≠ 0) (hwin : H.fromSurface surf ≠ 0)
    (hnodup : keysNodup s.windows)
    (hr1 : mapFind s.windows h = some r1) (hr1nz : r1 ≠ 0) :
    mapFind (setSurface H h surf w hp s).windows h =
      some (H.fromSurface surf) ∧
    relCount (setSurface H h surf w hp s).trace r1 =
      relCount s.trace r1 + 1 := by
  have hl := load_done H s hdone
  simp only [setSurface, hl]
  rw [if_neg (by simp [hslot, hh]), if_neg hsurf, if_neg hwin]
  have hf2 : mapFind (addEv s [Event.acquireWin (H.fromSurface surf),
      Event.engineSetSurface h (H.fromSurface surf) (toU32 w)
        (toU32 hp)]).windows h = some r1 := by
    simpa using hr1
  rw [rwl_of_find_some _ h r1 hf2]
  have hf3 : mapFind (mapErase s.windows h) h = none :=
    mapFind_erase_self s.windows h hnodup
  rw [emplaceWin_of_find_none _ h (H.fromSurface surf) (by simpa using hf3)]
  constructor
  · simp
  · simp [relCount, hr1nz, List.count_append, List.count_cons,
      beq_iff_eq]

theorem set_surface_swaps_reference_witness :
    stReady.apiDone = true ∧ stReady.api.set_surface = true ∧
    (5 : Int) ≠ 0 ∧ (3 : Nat) ≠ 0 ∧ hostA.fromSurface 3 ≠ 0 ∧
    keysNodup stReady.windows ∧ mapFind stReady.windows 5 = some 33 ∧
    (33 : Nat) ≠ 0 ∧
    mapFind (setSurface hostA 5 3 10 20 stReady).windows 5 =
      some (hostA.fromSurface 3) ∧
    relCount (setSurface hostA 5 3 10 20 stReady).trace 33 =
      relCount stReady.trace 33 + 1 :=
  ⟨rfl, rfl, by decide, by decide, by decide, by decide, by decide,
   by decide,
   set_surface_swaps_reference hostA 5 10 20 3 stReady 33 rfl rfl
     (by decide) (by decide) (by decide) (by decide) (by decide)
     (by decide)⟩

/-- C2: `destroy` on a non-null handle with the destroy slot bound invokes
the engine's destroy entry point strictly before the table entry is
released and erased; afterwards the table holds no entry for the handle,
and a previously installed reference is released exactly once. -/
theorem destroy_engine_first_then_remove (H : Host) (h : Int)
    (s : BridgeState) (hdone : s.apiDone = true)
    (hslot : s.api.destroy = true) (hh : h ≠ 0)
    (hnodup : keysNodup s.windows) :
    mapFind (destroy H h s).windows h = none ∧
    (∀ r1, mapFind s.windows h = some r1 → r1 ≠ 0 →
      (destroy H h s).trace = s.trace ++
        [Event.engineDestroy h, Event.releaseWin r1, Event.tableErase h]) ∧
    (mapFind s.windows h = none →
      (destroy H h s).trace = s.trace ++ [Event.engineDestroy h]) := by
  have hl := load_done H s hdone
  simp only [destroy, hl]
  rw [if_neg (by simp [hslot, hh])]
  cases hfind : mapFind s.windows h with
  | none =>
    rw [rwl_of_find_none _ h (by simpa using hfind)]
    refine ⟨by simpa using hfind, ?_, ?_⟩
    · intro r1 hr1 _
      exact absurd hr1 (by simp)
    · intro _
      simp
  | some r =>
    rw [rwl_of_find_some _ h r (by simpa using hfind)]
    refine ⟨?_, ?_, ?_⟩
    · simpa using mapFind_erase_self s.windows h hnodup
    · intro r1 hr1 hr1nz
      injection hr1 with he
      subst he
      simp [hr1nz]
    · intro hnone
      exact absurd hnone (by simp)

lemma utf8_acq_counts (js : Option String) (r : Nat) :
    (get_utf8_or_null js).2.count (Event.acquireWin r) = 0 ∧
    (get_utf8_or_null js).2.count (Event.releaseWin r) = 0 := by
  cases js <;> simp [get_utf8_or_null]

lemma utf8_rel_counts (js p : Option String) (r : Nat) :
    (release_utf8 js p).count (Event.acquireWin r) = 0 ∧
    (release_utf8 js p).count (Event.releaseWin r) = 0 := by
  cases js <;> cases p <;> simp [release_utf8]

/-- C3: a `create` call in which the engine returns a non-null handle leaves
exactly one table entry for that handle, holding the window reference
acquired from the surface during the same call. -/
theorem create_installs_exactly_one (H : Host) (surf : Nat) (w hp : Int)
    (sc : JDouble) (gd nls : Option String) (s : BridgeState)
    (hdone : s.apiDone = true) (hslot : s.api.create = true)
    (hsurf : surf ≠ 0) (hwin : H.fromSurface surf ≠ 0)
    (hnodup : keysNodup s.windows)
    (heng : H.engineCreate (H.fromSurface surf) (toU32 w) (toU32 hp) sc
      gd nls ≠ 0) :
    (create H surf w hp sc gd nls s).1 =
      H.engineCreate (H.fromSurface surf) (toU32 w) (toU32 hp) sc gd nls ∧
    keyCount (create H surf w hp sc gd nls s).2.windows
      (create H surf w hp sc gd nls s).1 = 1 ∧
    mapFind (create H surf w hp sc gd nls s).2.windows
      (create H surf w hp sc gd nls s).1 = some (H.fromSurface surf) := by
  have hl := load_done H s hdone
  simp only [create, hl, get_utf8_fst]
  rw [if_neg (by simp [hslot]), if_neg hsurf, if_neg hwin, if_neg heng]
  set key := H.engineCreate (H.fromSurface surf) (toU32 w) (toU32 hp) sc
    gd nls with hkey
  cases hfind : mapFind s.windows key with
  | none =>
    rw [rwl_of_find_none _ key (by simpa using hfind)]
    rw [emplaceWin_of_find_none _ key (H.fromSurface surf)
      (by simpa using hfind)]
    refine ⟨rfl, ?_, ?_⟩
    · simpa using keyCount_eq_zero s.windows key hfind
    · simp
  | some r =>
    rw [rwl_of_find_some _ key r (by simpa using hfind)]
    rw [emplaceWin_of_find_none _ key (H.fromSurface surf)
      (by simpa using mapFind_erase_self s.windows key hnodup)]
    refine ⟨rfl, ?_, ?_⟩
    · simpa using keyCount_erase_self s.windows key hnodup
    · simp

theorem create_installs_exactly_one_witness :
    stReady.apiDone = true ∧ stReady.api.create = true ∧
    (3 : Nat) ≠ 0 ∧ hostA.fromSurface 3 ≠ 0 ∧ keysNodup stReady.windows ∧
    hostA.engineCreate (hostA.fromSurface 3) (toU32 1080) (toU32 1920) 2
      (some "/games/foo") (some "en") ≠ 0 ∧
    keyCount
      (create hostA 3 1080 1920 2 (some "/games/foo") (some "en")
        stReady).2.windows
      (create hostA 3 1080 1920 2 (some "/games/foo") (some "en")
        stReady).1 = 1 :=
  ⟨rfl, rfl, by decide, by decide, by decide, by decide,
   (create_installs_exactly_one hostA 3 1080 1920 2 (some "/games/foo")
     (some "en") stReady rfl rfl (by decide) (by decide) (by decide)
     (by decide)).2.1⟩

/-- C4: whenever `create` returns the null handle — unbound create slot,
null surface, window acquisition failure, or engine failure — the window
table is left unchanged and window acquisitions are balanced by releases
within the call: no leaked reference, no table entry. -/
theorem create_null_leaves_table_unchanged (H : Host) (surf : Nat)
    (w hp : Int) (sc : JDouble) (gd nls : Option String) (s : BridgeState)
    (h0 : (create H surf w hp sc gd nls s).1 = 0) :
    (create H surf w hp sc gd nls s).2.windows = s.windows ∧
    ∀ r, acqCount (create H surf w hp sc gd nls s).2.trace r +
           relCount s.trace r =
         relCount (create H surf w hp sc gd nls s).2.trace r +
           acqCount s.trace r := by
  have hw := load_windows H s
  have hac := fun r => load_count H s (Event.acquireWin r) (acquireWin_ne_log r)
  have hrc := fun r => load_count H s (Event.releaseWin r) (releaseWin_ne_log r)
  by_cases hc1 : (load_api_or_log H s).api.create = false
  · rw [create_unbound_eq H surf w hp sc gd nls s hc1]
    refine ⟨hw, fun r => ?_⟩
    simp only [acqCount, relCount]
    simp only [hac r, hrc r]
    omega
  by_cases hc2 : surf = 0
  · rw [create_nullsurface_eq H surf w hp sc gd nls s hc1 hc2]
    refine ⟨by simp [hw], fun r => ?_⟩
    simp only [acqCount, relCount]
    simp [List.count_append, List.count_singleton, beq_iff_eq, hac r, hrc r]
    omega
  by_cases hc3 : H.fromSurface surf = 0
  · rw [create_nowindow_eq H surf w hp sc gd nls s hc1 hc2 hc3]
    refine ⟨by simp [hw], fun r => ?_⟩
    simp only [acqCount, relCount]
    simp [List.count_append, List.count_singleton, beq_iff_eq, hac r, hrc r]
    omega
  by_cases hc4 : H.engineCreate (H.fromSurface surf) (toU32 w) (toU32 hp)
      sc gd nls = 0
  · rw [create_engfail_eq H surf w hp sc gd nls s hc1 hc2 hc3 hc4]
    refine ⟨by simp [hw], fun r => ?_⟩
    simp only [acqCount, relCount, Prod.snd, addEv_trace,
      List.count_append, hac r, hrc r,
      (utf8_acq_counts gd r).1, (utf8_acq_counts gd r).2,
      (utf8_acq_counts nls r).1, (utf8_acq_counts nls r).2,
      (utf8_rel_counts gd gd r).1, (utf8_rel_counts gd gd r).2,
      (utf8_rel_counts nls nls r).1, (utf8_rel_counts nls nls r).2]
    by_cases hrw : r = H.fromSurface surf
    · subst hrw
      simp [List.count_cons, List.count_singleton, beq_iff_eq]
      omega
    · simp [List.count_cons, List.count_singleton, beq_iff_eq, hrw]
      omega
  · rw [create_engok_eq H surf w hp sc gd nls s hc1 hc2 hc3 hc4] at h0
    simp at h0
    exact absurd h0 hc4

lemma pair_snd {α β : Type} (a : α) (b : β) : (Prod.mk a b).2 = b := rfl

/-- C10: in every `create` call that reaches the engine, the UTF-8 buffer of
each non-null string argument is acquired before the engine call and
released exactly once right after it returns — on the engine-success and
engine-failure paths alike — while a null string argument is acquired and
released zero times, the engine receiving the null pointer (`none`) rather
than an empty string. -/
theorem create_utf8_discipline (H : Host) (surf : Nat) (w hp : Int)
    (sc : JDouble) (gd nls : Option String) (s : BridgeState)
    (hdone : s.apiDone = true) (hslot : s.api.create = true)
    (hsurf : surf ≠ 0) (hwin : H.fromSurface surf ≠ 0) :
    ∃ rest : List Event,
      (create H surf w hp sc gd nls s).2.trace =
        s.trace ++ ([Event.acquireWin (H.fromSurface surf)] ++
          (get_utf8_or_null gd).2 ++ (get_utf8_or_null nls).2 ++
          [Event.engineCreate (H.fromSurface surf) (toU32 w) (toU32 hp) sc
            gd nls] ++
          release_utf8 gd gd ++ release_utf8 nls nls ++ rest) ∧
      ∀ g, rest.count (Event.acquireUtf8 g) = 0 ∧
           rest.count (Event.releaseUtf8 g) = 0 := by
  have hl := load_done H s hdone
  have hc1 : ¬ (load_api_or_log H s).api.create = false := by
    simp [hl, hslot]
  by_cases he : H.engineCreate (H.fromSurface surf) (toU32 w) (toU32 hp) sc
      gd nls = 0
  · rw [create_engfail_eq H surf w hp sc gd nls s hc1 hsurf hwin he, hl]
    refine ⟨[Event.releaseWin (H.fromSurface surf),
      Event.log "rfvp_android_create returned null"], ?_, ?_⟩
    · simp [List.append_assoc]
    · intro g
      simp
  · rw [create_engok_eq H surf w hp sc gd nls s hc1 hsurf hwin he, hl,
      pair_snd]
    obtain ⟨d1, hd1, hg1⟩ := rwl_trace_delta
      (addEv s ([Event.acquireWin (H.fromSurface surf)] ++
        (get_utf8_or_null gd).2 ++ (get_utf8_or_null nls).2 ++
        [Event.engineCreate (H.fromSurface surf) (toU32 w) (toU32 hp) sc
          gd nls] ++
        release_utf8 gd gd ++ release_utf8 nls nls))
      (H.engineCreate (H.fromSurface surf) (toU32 w) (toU32 hp) sc gd nls)
    obtain ⟨d2, hd2, hg2⟩ := emplace_trace_delta
      (release_window_locked
        (addEv s ([Event.acquireWin (H.fromSurface surf)] ++
          (get_utf8_or_null gd).2 ++ (get_utf8_or_null nls).2 ++
          [Event.engineCreate (H.fromSurface surf) (toU32 w) (toU32 hp) sc
            gd nls] ++
          release_utf8 gd gd ++ release_utf8 nls nls))
        (H.engineCreate (H.fromSurface surf) (toU32 w) (toU32 hp) sc
          gd nls))
      (H.engineCreate (H.fromSurface surf) (toU32 w) (toU32 hp) sc gd nls)
      (H.fromSurface surf)
    refine ⟨d1 ++ d2, ?_, ?_⟩
    · rw [hd2, hd1]
      simp [List.append_assoc]
    · intro g
      simp [List.count_append, (hg1 g).1, (hg1 g).2, (hg2 g).1, (hg2 g).2]

theorem create_utf8_discipline_witness :
    stReady.apiDone = true ∧ stReady.api.create = true ∧
    (3 : Nat) ≠ 0 ∧ hostA.fromSurface 3 ≠ 0 ∧
    ∃ rest : List Event,
      (create hostA 3 1080 1920 2 (some "/games/foo") none
        stReady).2.trace =
        stReady.trace ++ ([Event.acquireWin (hostA.fromSurface 3)] ++
          (get_utf8_or_null (some "/games/foo")).2 ++
          (get_utf8_or_null none).2 ++
          [Event.engineCreate (hostA.fromSurface 3) (toU32 1080)
            (toU32 1920) 2 (some "/games/foo") none] ++
          release_utf8 (some "/games/foo") (some "/games/foo") ++
          release_utf8 none none ++ rest) ∧
      ∀ g, rest.count (Event.acquireUtf8 g) = 0 ∧
           rest.count (Event.releaseUtf8 g) = 0 :=
  ⟨rfl, rfl, by decide, by decide,
   create_utf8_discipline hostA 3 1080 1920 2 (some "/games/foo") none
     stReady rfl rfl (by decide) (by decide)⟩

theorem create_null_leaves_table_unchanged_witness :
    (create hostNone 3 1080 1920 2 none none BridgeState.init).1 = 0 ∧
    (create hostNone 3 1080 1920 2 none none
      BridgeState.init).2.windows = BridgeState.init.windows :=
  ⟨by decide,
   (create_null_leaves_table_unchanged hostNone 3 1080 1920 2 none none
     BridgeState.init (by decide)).1⟩

theorem destroy_engine_first_then_remove_witness :
    stReady.apiDone = true ∧ stReady.api.destroy = true ∧
    (5 : Int) ≠ 0 ∧ keysNodup stReady.windows ∧
    mapFind stReady.windows 5 = some 33 ∧ (33 : Nat) ≠ 0 ∧
    (destroy hostA 5 stReady).trace = stReady.trace ++
      [Event.engineDestroy 5, Event.releaseWin 33, Event.tableErase 5] :=
  ⟨rfl, rfl, by decide, by decide, by decide, by decide,
   (destroy_engine_first_then_remove hostA 5 stReady rfl rfl (by decide)
     (by decide)).2.1 33 (by decide) (by decide)⟩

/-- C5: the API-table binding work executes at most once per process: every
first call consumes the once-flag, a second `load_api_or_log` call — even
against a different loader outcome, e.g. the shared binary has appeared in
the meantime — is the identity, and once the flag is set no sequence of shim
calls alters the bound table or clears the flag. -/
theorem resolve_at_most_once (H H2 : Host) (s : BridgeState)
    (cs : List (Host × Call)) :
    load_api_or_log H2 (load_api_or_log H s) = load_api_or_log H s ∧
    (load_api_or_log H s).apiDone = true ∧
    (s.apiDone = true →
      (runSeq cs s).api = s.api ∧ (runSeq cs s).apiDone = true) :=
  ⟨load_done H2 _ (load_apiDone H s), load_apiDone H s,
   fun hd => runSeq_api cs s hd⟩

theorem resolve_at_most_once_witness :
    stReady.apiDone = true ∧
    (runSeq [(hostA, Call.step 5 16), (hostNone, Call.destroy 5)]
      stReady).api = stReady.api :=
  ⟨rfl,
   ((resolve_at_most_once hostA hostNone stReady
      [(hostA, Call.step 5 16), (hostNone, Call.destroy 5)]).2.2 rfl).1⟩

/-- C6: each handle-taking shim called with the reserved null handle `0` is a
no-op beyond API resolution — the engine is not invoked and the window table
is untouched, the resulting state being exactly the post-resolution state —
and `step` returns the non-zero status `1` both on a null handle and whenever
its slot is unbound. -/
theorem null_handle_unavailable (H : Host) (s : BridgeState)
    (dt w hp p : Int) (x y : JDouble) (surf : Nat) :
    step H 0 dt s = (1, load_api_or_log H s) ∧
    resize H 0 w hp s = load_api_or_log H s ∧
    setSurface H 0 surf w hp s = load_api_or_log H s ∧
    touch H 0 p x y s = load_api_or_log H s ∧
    destroy H 0 s = load_api_or_log H s ∧
    ((load_api_or_log H s).api.step = false →
      ∀ hd : Int, step H hd dt s = (1, load_api_or_log H s)) := by
  refine ⟨?_, ?_, ?_, ?_, ?_, ?_⟩
  · simp [step]
  · simp [resize]
  · simp [setSurface]
  · simp [touch]
  · simp [destroy]
  · intro hstep hd
    simp [step, hstep]

theorem null_handle_unavailable_witness :
    (load_api_or_log hostNone BridgeState.init).api.step = false ∧
    step hostNone 9 16 BridgeState.init =
      (1, load_api_or_log hostNone BridgeState.init) :=
  ⟨by decide,
   (null_handle_unavailable hostNone BridgeState.init 16 1 2 0 3 4 5).2.2.2.2.2
     (by decide) 9⟩

/-- C8: `setSurface` on a live handle with a null surface argument keeps the
current surface: the engine is not invoked, the window table entry is
unchanged, and the only effect is the warning log line. -/
theorem set_surface_null_ignored (H : Host) (h w hp : Int)
    (s : BridgeState) (hdone : s.apiDone = true)
    (hslot : s.api.set_surface = true) (hh : h ≠ 0) :
    setSurface H h 0 w hp s =
      addEv s [Event.log "setSurface: surface is null (ignored)"] ∧
    (setSurface H h 0 w hp s).windows = s.windows ∧
    mapFind (setSurface H h 0 w hp s).windows h = mapFind s.windows h := by
  have hl := load_done H s hdone
  simp only [setSurface, hl]
  rw [if_neg (by simp [hslot, hh])]
  simp

/-- C9: `step`, `resize`, and `touch` leave the window table completely
unchanged for every input and state — no entry is added, removed, or
replaced, and no window reference is acquired or released by them. -/
theorem step_resize_touch_frame (H : Host) (h dt w hp p : Int)
    (x y : JDouble) (s : BridgeState) :
    (step H h dt s).2.windows = s.windows ∧
    (resize H h w hp s).windows = s.windows ∧
    (touch H h p x y s).windows = s.windows ∧
    (∀ r, acqCount (step H h dt s).2.trace r = acqCount s.trace r ∧
          relCount (step H h dt s).2.trace r = relCount s.trace r) ∧
    (∀ r, acqCount (resize H h w hp s).trace r = acqCount s.trace r ∧
          relCount (resize H h w hp s).trace r = relCount s.trace r) ∧
    (∀ r, acqCount (touch H h p x y s).trace r = acqCount s.trace r ∧
          relCount (touch H h p x y s).trace r = relCount s.trace r) := by
  have hw := load_windows H s
  refine ⟨?_, ?_, ?_, ?_, ?_, ?_⟩
  · simp only [step]
    split
    · exact hw
    · split
      · exact hw
      · simpa using hw
  · simp only [resize]
    split
    · exact hw
    · simpa using hw
  · simp only [touch]
    split
    · exact hw
    · simpa using hw
  · intro r
    have ha := load_count H s (Event.acquireWin r) (acquireWin_ne_log r)
    have hb := load_count H s (Event.releaseWin r) (releaseWin_ne_log r)
    simp only [step, acqCount, relCount]
    split
    · exact ⟨ha, hb⟩
    · split
      · exact ⟨ha, hb⟩
      · constructor <;>
          simp [List.count_append, List.count_singleton, beq_iff_eq, ha, hb]
  · intro r
    have ha := load_count H s (Event.acquireWin r) (acquireWin_ne_log r)
    have hb := load_count H s (Event.releaseWin r) (releaseWin_ne_log r)
    simp only [resize, acqCount, relCount]
    split
    · exact ⟨ha, hb⟩
    · constructor <;>
        simp [List.count_append, List.count_singleton, beq_iff_eq, ha, hb]
  · intro r
    have ha := load_count H s (Event.acquireWin r) (acquireWin_ne_log r)
    have hb := load_count H s (Event.releaseWin r) (releaseWin_ne_log r)
    simp only [touch, acqCount, relCount]
    split
    · exact ⟨ha, hb⟩
    · constructor <;>
        simp [List.count_append, List.count_singleton, beq_iff_eq, ha, hb]

/-- C7: the Native Context Reference is created by the first successful
context-initialization call — which stores the JavaVM handle and the durable
global reference and registers the pair with the engine exactly once — and
thereafter is never released or replaced: once the once-flag is set, no
sequence of calls changes the stored pair or invokes the engine's context
entry point again. -/
theorem ctx_registered_once (H : Host) (a : Nat) (s : BridgeState)
    (cs : List (Host × Call))
    (hdone : s.apiDone = true) (hslot : s.api.init_context = true)
    (ha : a ≠ 0) (hvm : H.getJavaVM ≠ 0) (href : H.newGlobalRef a ≠ 0)
    (hc : s.ctxDone = false) :
    (nativeInitAndroidContext H a s).ctxDone = true ∧
    (nativeInitAndroidContext H a s).javaVm = H.getJavaVM ∧
    (nativeInitAndroidContext H a s).appCtx = H.newGlobalRef a ∧
    initCount (nativeInitAndroidContext H a s).trace =
      initCount s.trace + 1 ∧
    (∀ s2, s2.ctxDone = true →
      (runSeq cs s2).javaVm = s2.javaVm ∧
      (runSeq cs s2).appCtx = s2.appCtx ∧
      initCount (runSeq cs s2).trace = initCount s2.trace) := by
  have hl := load_done H s hdone
  simp only [nativeInitAndroidContext, hl]
  rw [if_neg (by simp [hslot]), if_neg ha, if_neg (by simp [hc]),
    if_neg hvm, if_neg href]
  refine ⟨rfl, rfl, rfl, ?_, ?_⟩
  · simp [initCount_append, initCount_cons, isInitCtxEv]
  · intro s2 h2
    exact ⟨(runSeq_ctx cs s2 h2).2.1, (runSeq_ctx cs s2 h2).2.2.1,
      (runSeq_ctx cs s2 h2).2.2.2⟩

theorem ctx_registered_once_witness :
    stReady.apiDone = true ∧ stReady.api.init_context = true ∧
    (8 : Nat) ≠ 0 ∧ hostA.getJavaVM ≠ 0 ∧ hostA.newGlobalRef 8 ≠ 0 ∧
    stReady.ctxDone = false ∧
    (nativeInitAndroidContext hostA 8 stReady).appCtx =
      hostA.newGlobalRef 8 :=
  ⟨rfl, rfl, by decide, by decide, by decide, rfl,
   (ctx_registered_once hostA 8 stReady [] rfl rfl (by decide) (by decide)
      (by decide) rfl).2.2.1⟩

theorem set_surface_null_ignored_witness :
    stReady.apiDone = true ∧ stReady.api.set_surface = true ∧
    (5 : Int) ≠ 0 ∧
    setSurface hostA 5 0 10 20 stReady =
      addEv stReady [Event.log "setSurface: surface is null (ignored)"] :=
  ⟨rfl, rfl, by decide,
   (set_surface_null_ignored hostA 5 10 20 stReady rfl rfl (by decide)).1⟩

end Rfvp
